import Mathlib

/-!
Verification development for `scripts/fetch_from_notion.py`.

The script walks a remote Notion hierarchy and writes Markdown/CSV files.
We embed it shallowly: Python dicts/lists coming from the API are modelled
by the `JVal` type below, the remote API (`notion.pages.retrieve`,
`notion.blocks.children.list`, …) is modelled by a `World` of pure
functions, and file writes are collected in a list instead of hitting a
file system.  Every definition is transcribed branch-for-branch from the
Python source; comments note the few places where CPython would raise a
`TypeError` on data outside the Notion wire format (the model totalises
those with defaults, and theorems do not rely on such inputs).
-/

/-- A Python/JSON value as delivered by the Notion client. -/
inductive JVal where
  | null
  | bool (b : Bool)
  | num (n : Int)
  | str (s : String)
  | arr (xs : List JVal)
  | obj (kvs : List (String × JVal))

namespace JVal

/-- `d.get(k)`: the value stored under key `k`, `none` when the key is absent.
Mirrors Python `dict.get` (a stored JSON `null` is returned as `some .null`,
exactly as Python returns the stored `None`). -/
def jget : JVal → String → Option JVal
  | .obj kvs, k => lookupKey kvs k
  | _, _ => none
where
  lookupKey : List (String × JVal) → String → Option JVal
    | [], _ => none
    | (k', v) :: rest, k => if k' = k then some v else lookupKey rest k

/-- `d.get(k, default)`. -/
def jgetD (v : JVal) (k : String) (d : JVal) : JVal :=
  match jget v k with
  | some x => x
  | none => d

/-- The key/value pairs of a dict, `[]` for anything else. -/
def objKvs : JVal → List (String × JVal)
  | .obj kvs => kvs
  | _ => []

/-- Python truthiness of a value (`bool(v)`). -/
def pyTruthy : JVal → Bool
  | .null => false
  | .bool b => b
  | .num n => n != 0
  | .str s => s ≠ ""
  | .arr xs => !xs.isEmpty
  | .obj kvs => !kvs.isEmpty

/-- Truthiness of the result of a bare `d.get(k)` (absent key → `None` → falsy). -/
def pyTruthyOpt : Option JVal → Bool
  | some v => pyTruthy v
  | none => false

/-- `str(v)` / f-string interpolation for the scalar values the script
interpolates.  Containers are never interpolated on well-formed data, so
their rendering is irrelevant to every theorem below. -/
def pyStr : JVal → String
  | .null => "None"
  | .bool b => if b then "True" else "False"
  | .num n => toString n
  | .str s => s
  | .arr _ => "<list>"
  | .obj _ => "<dict>"

/-- f-string interpolation of a bare `d.get(k)` result. -/
def pyStrOpt : Option JVal → String
  | some v => pyStr v
  | none => "None"

/-- `a or b` where `a` is the result of a bare `d.get(k)`. -/
def pyOr (a : Option JVal) (b : JVal) : JVal :=
  match a with
  | some v => if pyTruthy v then v else b
  | none => b

/-- `len(v)` for the container shapes `len` is applied to. -/
def pyLen : JVal → Nat
  | .arr xs => xs.length
  | .obj kvs => kvs.length
  | .str s => s.length
  | _ => 0

/-- Python `v == "s"` where `v` came from a bare `d.get(k)`:
true exactly when the stored value is the string `s`. -/
def oeq (v : Option JVal) (s : String) : Bool :=
  match v with
  | some (.str t) => t = s
  | _ => false

end JVal

open JVal

/-! ## Filename sanitisation (`sanitize_filename`) -/

/-- The characters removed by `re.sub(r'[<>:"/\\|?*]', '', name)`. -/
def badChars : List Char := ['<', '>', ':', '"', '/', '\\', '|', '?', '*']

/-- The whitespace characters stripped by Python `str.strip()`
(ASCII portion; the titles handled here contain no exotic Unicode spaces). -/
def pyWs (c : Char) : Bool :=
  c = ' ' || c = '\t' || c = '\n' || c = '\r' || c = '\x0b' || c = '\x0c'

/-- Strip leading and trailing `pyWs` characters, as Python `str.strip()`. -/
def stripChars (l : List Char) : List Char :=
  ((l.dropWhile pyWs).reverse.dropWhile pyWs).reverse

/-- Character-level core of `sanitize_filename`: remove the unsafe
characters (`re.sub` with empty replacement), then strip. -/
def sanitizeChars (l : List Char) : List Char :=
  stripChars (l.filter (fun c => !badChars.contains c))

/-- `sanitize_filename(name)`. -/
def sanitize_filename (name : String) : String :=
  ⟨sanitizeChars name.toList⟩

/-! ## Rich text (`rich_text_to_markdown`) -/

/-- One element of the list comprehension in `rich_text_to_markdown`. -/
def richRunToMd (t : JVal) : String :=
  let content := pyStr (jgetD t "plain_text" (.str ""))
  let ann := jgetD t "annotations" (.obj [])
  let content := if pyTruthyOpt (jget ann "bold") then "**" ++ content ++ "**" else content
  let content := if pyTruthyOpt (jget ann "italic") then "*" ++ content ++ "*" else content
  let content := if pyTruthyOpt (jget ann "strikethrough") then "~~" ++ content ++ "~~" else content
  let content := if pyTruthyOpt (jget ann "code") then "`" ++ content ++ "`" else content
  match jget t "href" with
  | some h => if pyTruthy h then "[" ++ content ++ "](" ++ pyStr h ++ ")" else content
  | none => content

/-- `rich_text_to_markdown(rich_texts)`; the argument is the stored JSON list. -/
def rich_text_to_markdown (v : JVal) : String :=
  match v with
  | .arr xs => String.join (xs.map richRunToMd)
  | _ => ""

/-- `"".join([t.get("plain_text", "") for t in texts])`. -/
def joinPlainText (v : JVal) : String :=
  match v with
  | .arr xs => String.join (xs.map (fun t => pyStr (jgetD t "plain_text" (.str ""))))
  | _ => ""

/-! ## Property values (`extract_property_value`) -/

/-- Python string slicing `s[:10]` (date-only prefix of a timestamp). -/
def take10 (s : String) : String := ⟨s.toList.take 10⟩

/-- Python `s.replace(pat, rep)` for the single-character patterns the
script uses (`"-"`, `"|"`, `"\""`): replace every occurrence of the
character by `rep`. -/
def pyReplaceChar (c : Char) (rep : String) (s : String) : String :=
  ⟨(s.toList.map (fun a => if a = c then rep.toList else [a])).flatten⟩

/-- `id.replace("-", "")`. -/
def stripHyphens (s : String) : String := pyReplaceChar '-' "" s

/-- The `formula` branch of `extract_property_value`. -/
def extractFormula (prop : JVal) : String :=
  let formula := jgetD prop "formula" (.obj [])
  let ftype := jget formula "type"
  if oeq ftype "string" then
    let v := jgetD formula "string" (.str "")
    if pyTruthy v then pyStr v else ""
  else if oeq ftype "number" then
    match jget formula "number" with
    | none => ""
    | some .null => ""
    | some v => pyStr v
  else if oeq ftype "boolean" then
    if pyTruthyOpt (jget formula "boolean") then "✅" else "☐"
  else if oeq ftype "date" then
    match jget formula "date" with
    | some d => if pyTruthy d then pyStr (jgetD d "start" (.str "")) else ""
    | none => ""
  else ""

/-- The `rollup` branch of `extract_property_value`. -/
def extractRollup (prop : JVal) : String :=
  let rollup := jgetD prop "rollup" (.obj [])
  let rtype := jget rollup "type"
  if oeq rtype "number" then
    match jget rollup "number" with
    | none => ""
    | some .null => ""
    | some v => pyStr v
  else if oeq rtype "array" then
    "(" ++ toString (pyLen (jgetD rollup "array" (.arr []))) ++ " items)"
  else ""

/-- `extract_property_value(prop)`: render one typed property as a string.
Transcribed branch-for-branch from the Python `if/elif` chain; `else`
renders the raw type tag, f-string style (`None` when the key is absent). -/
def extract_property_value (prop : JVal) : String :=
  let pt := jget prop "type"
  if oeq pt "title" then
    joinPlainText (jgetD prop "title" (.arr []))
  else if oeq pt "rich_text" then
    joinPlainText (jgetD prop "rich_text" (.arr []))
  else if oeq pt "number" then
    match jget prop "number" with
    | none => ""
    | some .null => ""
    | some v => pyStr v
  else if oeq pt "select" then
    match jget prop "select" with
    | some s => if pyTruthy s then pyStr (jgetD s "name" (.str "")) else ""
    | none => ""
  else if oeq pt "multi_select" then
    match jgetD prop "multi_select" (.arr []) with
    | .arr os => String.intercalate ", " (os.map (fun o => pyStr (jgetD o "name" (.str ""))))
    | _ => ""
  else if oeq pt "status" then
    match jget prop "status" with
    | some s => if pyTruthy s then pyStr (jgetD s "name" (.str "")) else ""
    | none => ""
  else if oeq pt "date" then
    match jget prop "date" with
    | some d =>
      if pyTruthy d then
        let start := jgetD d "start" (.str "")
        match jget d "end" with
        | some e =>
          if pyTruthy e then pyStr start ++ " → " ++ pyStr e else pyStr start
        | none => pyStr start
      else ""
    | none => ""
  else if oeq pt "people" then
    match jgetD prop "people" (.arr []) with
    | .arr ps =>
      let names := (ps.map (fun p =>
        pyOr (jget p "name") (jgetD (jgetD p "person" (.obj [])) "email" (.str "")))).filter pyTruthy
      String.intercalate ", " (names.map pyStr)
    | _ => ""
  else if oeq pt "checkbox" then
    if pyTruthy (jgetD prop "checkbox" (.bool false)) then "✅" else "☐"
  else if oeq pt "url" then
    let v := jgetD prop "url" (.str "")
    if pyTruthy v then pyStr v else ""
  else if oeq pt "email" then
    let v := jgetD prop "email" (.str "")
    if pyTruthy v then pyStr v else ""
  else if oeq pt "phone_number" then
    let v := jgetD prop "phone_number" (.str "")
    if pyTruthy v then pyStr v else ""
  else if oeq pt "formula" then
    extractFormula prop
  else if oeq pt "relation" then
    "(" ++ toString (pyLen (jgetD prop "relation" (.arr []))) ++ " items)"
  else if oeq pt "rollup" then
    extractRollup prop
  else if oeq pt "created_time" then
    take10 (pyStr (jgetD prop "created_time" (.str "")))
  else if oeq pt "created_by" then
    let user := jgetD prop "created_by" (.obj [])
    let n := jgetD user "name" (.str "")
    if pyTruthy n then pyStr n else pyStr (jgetD user "id" (.str ""))
  else if oeq pt "last_edited_time" then
    take10 (pyStr (jgetD prop "last_edited_time" (.str "")))
  else if oeq pt "last_edited_by" then
    let user := jgetD prop "last_edited_by" (.obj [])
    let n := jgetD user "name" (.str "")
    if pyTruthy n then pyStr n else pyStr (jgetD user "id" (.str ""))
  else if oeq pt "files" then
    "(" ++ toString (pyLen (jgetD prop "files" (.arr []))) ++ " files)"
  else
    "[" ++ pyStrOpt pt ++ "]"

/-! ## Pagination (`while True … has_more … next_cursor` loops) -/

/-- One response of a paginated listing endpoint: its `results` and its
`has_more` flag (the opaque `next_cursor` is modelled by the position in
the chain of responses). -/
structure PageResp (α : Type) where
  results : List α
  hasMore : Bool

/-- The drain loop shared by `get_page_children`, `get_page_comments` and
the database query in `process_database`: extend with the current
response's results; stop when `has_more` is false, otherwise follow the
cursor to the next response. -/
def drainPaginated {α : Type} : List (PageResp α) → List α
  | [] => []
  | r :: rest => r.results ++ (if r.hasMore then drainPaginated rest else [])

/-- A listing source that returns exactly these N responses: every response
but the last announces a further page, the last one does not. -/
def wfChain {α : Type} : List (PageResp α) → Prop
  | [] => False
  | [r] => r.hasMore = false
  | r :: rest => r.hasMore = true ∧ wfChain rest

/-! ## The remote collaborator and the file system -/

/-- The remote Notion API and the ambient configuration, as pure functions.
`pagesRetrieve`/`dbRetrieve` return `none` when the call throws (the only
two calls the script wraps in `try`/`except` for fail-soft skipping);
`commentsPages` returns `none` when the comment listing throws (swallowed
to "no comments"); `tableRows` returns `none` when the single
`blocks.children.list` call inside `convert_table_block` throws.  The
unguarded listing loops are modelled by total functions, since their
exceptions would abort the whole process and no claim concerns them. -/
structure World where
  pagesRetrieve : String → Option JVal
  dbRetrieve : String → Option JVal
  blocksPages : String → List (PageResp JVal)
  commentsPages : String → Option (List (PageResp JVal))
  dbQueryPages : String → List (PageResp JVal)
  tableRows : String → Option (List JVal)
  downloadImages : Bool
  imagesFS : List String
  net : String → Bool

/-- One `filepath.write_text(...)` call: directory path (relative to the
export root), file name, and full content. -/
structure FileWrite where
  dir : List String
  name : String
  content : String
deriving DecidableEq

/-- `get_page_children(page_id)`: drain the block-children listing. -/
def get_page_children (w : World) (page_id : String) : List JVal :=
  drainPaginated (w.blocksPages page_id)

/-- The drained record collection of `notion.databases.query` inside
`process_database`. -/
def queryDatabaseRecords (w : World) (database_id : String) : List JVal :=
  drainPaginated (w.dbQueryPages database_id)

/-! ## Page title (`get_page_title`) -/

/-- The `for prop in props.values()` search in `get_page_title`: the first
title-typed property with a non-empty `title` list wins. -/
def findTitleProp : List (String × JVal) → String
  | [] => "Untitled"
  | (_, prop) :: rest =>
    if oeq (jget prop "type") "title" then
      match jgetD prop "title" (.arr []) with
      | .arr (t :: _) => pyStr (jgetD t "plain_text" (.str "Untitled"))
      | _ => findTitleProp rest
    else findTitleProp rest

/-- `get_page_title(page)`. -/
def get_page_title (page : JVal) : String :=
  findTitleProp (objKvs (jgetD page "properties" (.obj [])))

/-! ## Property table (`get_page_properties_markdown`) -/

/-- The filtering loop of `get_page_properties_markdown`: skip the title
property, skip properties whose extracted value is empty, pipe-escape the
surviving names and values. -/
def prop_items : List (String × JVal) → List (String × String)
  | [] => []
  | (name, prop) :: rest =>
    if oeq (jget prop "type") "title" then prop_items rest
    else
      let value := extract_property_value prop
      if value ≠ "" then
        (pyReplaceChar '|' "\\|" name, pyReplaceChar '|' "\\|" value) :: prop_items rest
      else prop_items rest

/-- Stable insertion of a name/value pair by name (`≤` keeps earlier
elements with equal keys in front, as Python's stable `list.sort`). -/
def insertByName (x : String × String) : List (String × String) → List (String × String)
  | [] => [x]
  | y :: ys => if x.1 ≤ y.1 then x :: y :: ys else y :: insertByName x ys

/-- Stable sort by name, as `prop_items.sort(key=lambda x: x[0])`. -/
def sortByName : List (String × String) → List (String × String)
  | [] => []
  | x :: xs => insertByName x (sortByName xs)

/-- `get_page_properties_markdown(page)`: the horizontal two-row property
table, or `""` when nothing remains to show. -/
def get_page_properties_markdown (page : JVal) : String :=
  match objKvs (jgetD page "properties" (.obj [])) with
  | [] => ""
  | props =>
    match prop_items props with
    | [] => ""
    | items =>
      let sorted := sortByName items
      let headers := sorted.map (·.1)
      let values := sorted.map (·.2)
      let header_row := "| " ++ String.intercalate " | " headers ++ " |"
      let separator := "| " ++ String.intercalate " | " (headers.map (fun _ => "---")) ++ " |"
      let value_row := "| " ++ String.intercalate " | " values ++ " |"
      header_row ++ "\n" ++ separator ++ "\n" ++ value_row ++ "\n\n---" ++ "\n"

/-! ## Asset fetching (`download_image`) -/

/-- Value of a hexadecimal digit character. -/
def hexVal (c : Char) : Option Nat :=
  if '0' ≤ c ∧ c ≤ '9' then some (c.toNat - '0'.toNat)
  else if 'a' ≤ c ∧ c ≤ 'f' then some (c.toNat - 'a'.toNat + 10)
  else if 'A' ≤ c ∧ c ≤ 'F' then some (c.toNat - 'A'.toNat + 10)
  else none

/-- `urllib.parse.unquote` (a stdlib primitive), modelled byte-for-byte on
the ASCII range: every valid `%XX` escape becomes the character with that
code, everything else passes through.  The claims rely only on this being
a pure function of its input. -/
def unquoteChars : List Char → List Char
  | [] => []
  | '%' :: a :: b :: rest =>
    match hexVal a, hexVal b with
    | some x, some y => Char.ofNat (16 * x + y) :: unquoteChars rest
    | _, _ => '%' :: a :: b :: unquoteChars rest
  | c :: rest => c :: unquoteChars rest

/-- A hexadecimal digit character. -/
def hexDigit (n : Nat) : Char :=
  if n < 10 then Char.ofNat ('0'.toNat + n) else Char.ofNat ('a'.toNat + (n - 10))

/-- Stand-in for `hashlib.md5(url.encode()).hexdigest()[:12]` (an external
library primitive): a fixed, deterministic 12-hex-character digest of the
string.  The claims use only that the digest is a pure function of the URL. -/
def md5Hex12 (s : String) : String :=
  let h := s.toList.foldl (fun a c => (a * 131 + c.toNat) % (2 ^ 48)) 7
  ⟨(List.range 12).map (fun i => hexDigit (h / 16 ^ i % 16))⟩

/-- The path component of `urllib.parse.urlparse(url)` (a stdlib
primitive), modelled for the `scheme://netloc/path` URLs the script
receives: everything after the netloc, query and fragment stripped. -/
def urlPathChars : List Char → List Char
  | [] => []
  | ':' :: '/' :: '/' :: rest => rest.dropWhile (fun c => c ≠ '/')
  | _ :: rest => urlPathChars rest

/-- `urlparse(url).path` as a character list. -/
def urlPath (url : String) : List Char :=
  let noFrag := (url.toList.takeWhile (fun c => c ≠ '#')).takeWhile (fun c => c ≠ '?')
  match urlPathChars noFrag with
  | [] => noFrag
  | p => p

/-- Python `str.split(sep)` for a one-character separator (the `"/"` split
of the URL path): `""` splits to `[""]`, separators at the ends produce
empty segments, exactly as in Python. -/
def splitOnChar (c : Char) : List Char → List (List Char)
  | [] => [[]]
  | a :: rest =>
    let r := splitOnChar c rest
    if a = c then [] :: r
    else
      match r with
      | h :: t => (a :: h) :: t
      | [] => [[a]]

/-- The local file name `download_image` derives from a URL:
`<uuid>_<sanitised original name>` from the last two path segments, or the
hash fallback when the path has fewer than two segments. -/
def derivedImageName (url : String) : String :=
  let path_parts := splitOnChar '/' (urlPath url)
  let uuidName : String × String :=
    if path_parts.length ≥ 2 then
      match path_parts.reverse with
      | lastPart :: sndLast :: _ => (⟨sndLast⟩, ⟨unquoteChars lastPart⟩)
      | _ => ("unknown", "image.png")
    else (md5Hex12 url, "image.png")
  let safe_name : String := ⟨uuidName.2.toList.map (fun c => if badChars.contains c then '_' else c)⟩
  uuidName.1 ++ "_" ++ safe_name

/-- Outcome of one `download_image` call: the image directory contents
afterwards, the returned path string, and whether a file was written. -/
structure DownloadResult where
  fs : List String
  ret : String
  wrote : Bool
deriving DecidableEq

/-- `download_image(url, output_dir)`: skip when the derived file already
exists, otherwise download and write; on a transport error return the
original URL unchanged.  `fs` is the set of files below `output_dir`,
`net url` tells whether the HTTP GET succeeds. -/
def download_image (net : String → Bool) (fs : List String) (url : String) : DownloadResult :=
  let filename := derivedImageName url
  let rel := "images/" ++ filename
  if fs.contains rel then ⟨fs, rel, false⟩
  else if net url then ⟨rel :: fs, rel, true⟩
  else ⟨fs, url, false⟩

/-! ## Comments (`get_page_comments`) -/

/-- The per-comment line built inside `get_page_comments`. -/
def commentLine (c : JVal) : String :=
  let created_by := jgetD c "created_by" (.obj [])
  let user_name := pyStr (pyOr (jget created_by "name") (jgetD created_by "id" (.str "Unknown")))
  let created_time := take10 (pyStr (jgetD c "created_time" (.str "")))
  let content := joinPlainText (jgetD c "rich_text" (.arr []))
  let formatted_content := String.intercalate "\n> " (content.splitOn "\n")
  "> **" ++ user_name ++ "** (" ++ created_time ++ "): " ++ formatted_content ++ "\n"

/-- `get_page_comments(page_id)`: drain the comment listing and render it
as a blockquote section; any exception is swallowed into `""`. -/
def get_page_comments (w : World) (page_id : String) : String :=
  match w.commentsPages page_id with
  | none => ""
  | some chain =>
    match drainPaginated chain with
    | [] => ""
    | comments =>
      let comment_lines := "## 💬 コメント\n" :: comments.map commentLine ++ ["\n---\n"]
      String.intercalate "\n" comment_lines

/-! ## Table blocks (`convert_table_block`) -/

/-- The cell list of one `table_row` block
(`row.get("table_row", {}).get("cells", [])`). -/
def rowCells (row : JVal) : List JVal :=
  match jgetD (jgetD row "table_row" (.obj [])) "cells" (.arr []) with
  | .arr cs => cs
  | _ => []

/-- The rendered, pipe-escaped cell texts of one row. -/
def rowCellTexts (row : JVal) : List String :=
  (rowCells row).map (fun c => pyReplaceChar '|' "\\|" (rich_text_to_markdown c))

/-- The row loop of `convert_table_block` (`i` is the `enumerate` index):
non-`table_row` children are skipped, cells are rendered and
pipe-escaped, and the separator is appended right after index 0. -/
def tableRowsToMd : List JVal → Nat → List String
  | [], _ => []
  | row :: rest, i =>
    if oeq (jget row "type") "table_row" then
      let cell_texts := rowCellTexts row
      let md_row := "| " ++ String.intercalate " | " cell_texts ++ " |"
      if i = 0 then
        md_row :: ("| " ++ String.intercalate " | " (cell_texts.map (fun _ => "---")) ++ " |")
          :: tableRowsToMd rest (i + 1)
      else
        md_row :: tableRowsToMd rest (i + 1)
    else tableRowsToMd rest (i + 1)

/-- `convert_table_block(block)`: fetch the child rows and render a
Markdown pipe table.  The two header flags are read but never used, as in
the source. -/
def convert_table_block (w : World) (block : JVal) : String :=
  let table_info := jgetD block "table" (.obj [])
  let _has_column_header := jgetD table_info "has_column_header" (.bool false)
  let _has_row_header := jgetD table_info "has_row_header" (.bool false)
  let fetched :=
    match jget block "id" with
    | some (.str i) => w.tableRows i
    | _ => none
  match fetched with
  | none => "[Table conversion error]" ++ "\n"
  | some rows =>
    match rows with
    | [] => "[Empty Table]" ++ "\n"
    | _ => String.intercalate "\n" (tableRowsToMd rows 0) ++ "\n" ++ "\n"

/-! ## Block rendering (`block_to_markdown`) -/

/-- Does `parent_title and child_id` hold (both strings truthy)? -/
def linkCond (parent_title : Option String) (child_id : String) : Bool :=
  (match parent_title with
   | some s => s ≠ ""
   | none => false) && child_id ≠ ""

/-- `block_to_markdown(block, output_dir, parent_title)`.  `output_dir` is
`none` when the Python caller passes no `Path`; the image branch consults
the world's image directory and network, as `download_image` does. -/
def block_to_markdown (w : World) (block : JVal) (output_dir : Option (List String))
    (parent_title : Option String) : String :=
  if oeq (jget block "type") "paragraph" then
    rich_text_to_markdown (jgetD (jgetD block "paragraph" (.obj [])) "rich_text" (.arr [])) ++ "\n"
  else if oeq (jget block "type") "heading_1" then
    "# " ++ rich_text_to_markdown (jgetD (jgetD block "heading_1" (.obj [])) "rich_text" (.arr [])) ++ "\n"
  else if oeq (jget block "type") "heading_2" then
    "## " ++ rich_text_to_markdown (jgetD (jgetD block "heading_2" (.obj [])) "rich_text" (.arr [])) ++ "\n"
  else if oeq (jget block "type") "heading_3" then
    "### " ++ rich_text_to_markdown (jgetD (jgetD block "heading_3" (.obj [])) "rich_text" (.arr [])) ++ "\n"
  else if oeq (jget block "type") "bulleted_list_item" then
    "- " ++ rich_text_to_markdown (jgetD (jgetD block "bulleted_list_item" (.obj [])) "rich_text" (.arr [])) ++ "\n"
  else if oeq (jget block "type") "numbered_list_item" then
    "1. " ++ rich_text_to_markdown (jgetD (jgetD block "numbered_list_item" (.obj [])) "rich_text" (.arr [])) ++ "\n"
  else if oeq (jget block "type") "to_do" then
    let texts := jgetD (jgetD block "to_do" (.obj [])) "rich_text" (.arr [])
    let checked := pyTruthy (jgetD (jgetD block "to_do" (.obj [])) "checked" (.bool false))
    let checkbox := if checked then "[x]" else "[ ]"
    "- " ++ checkbox ++ " " ++ rich_text_to_markdown texts ++ "\n"
  else if oeq (jget block "type") "toggle" then
    "<details><summary>" ++ rich_text_to_markdown (jgetD (jgetD block "toggle" (.obj [])) "rich_text" (.arr [])) ++ "</summary>\n</details>" ++ "\n"
  else if oeq (jget block "type") "code" then
    let texts := jgetD (jgetD block "code" (.obj [])) "rich_text" (.arr [])
    let language := pyStr (jgetD (jgetD block "code" (.obj [])) "language" (.str ""))
    "```" ++ language ++ "\n" ++ rich_text_to_markdown texts ++ "\n```" ++ "\n"
  else if oeq (jget block "type") "quote" then
    "> " ++ rich_text_to_markdown (jgetD (jgetD block "quote" (.obj [])) "rich_text" (.arr [])) ++ "\n"
  else if oeq (jget block "type") "divider" then
    "---" ++ "\n"
  else if oeq (jget block "type") "callout" then
    let texts := jgetD (jgetD block "callout" (.obj [])) "rich_text" (.arr [])
    let icon := jgetD (jgetD block "callout" (.obj [])) "icon" (.obj [])
    let emoji := if pyTruthy icon then pyStr (jgetD icon "emoji" (.str "💡")) else "💡"
    "> " ++ emoji ++ " " ++ rich_text_to_markdown texts ++ "\n"
  else if oeq (jget block "type") "child_page" then
    let title := pyStr (jgetD (jgetD block "child_page" (.obj [])) "title" (.str "Untitled"))
    let child_id := stripHyphens (pyStr (jgetD block "id" (.str "")))
    (if linkCond parent_title child_id then
      let safe_parent := sanitize_filename ((parent_title).getD "")
      let safe_title := sanitize_filename title
      "📄 [" ++ title ++ "](" ++ safe_parent ++ "/" ++ safe_title ++ "%20" ++ child_id ++ ".md)"
    else
      "📄 [" ++ title ++ "]") ++ "\n"
  else if oeq (jget block "type") "child_database" then
    let title := pyStr (jgetD (jgetD block "child_database" (.obj [])) "title" (.str "Untitled"))
    let child_id := stripHyphens (pyStr (jgetD block "id" (.str "")))
    (if linkCond parent_title child_id then
      let safe_parent := sanitize_filename ((parent_title).getD "")
      let safe_title := sanitize_filename title
      "🗄️ [" ++ title ++ "](" ++ safe_parent ++ "/" ++ safe_title ++ "%20" ++ child_id ++ ".csv)"
    else
      "🗄️ [" ++ title ++ "]") ++ "\n"
  else if oeq (jget block "type") "image" then
    let image := jgetD block "image" (.obj [])
    let image_path :=
      if oeq (jget image "type") "external" then
        pyStr (jgetD (jgetD image "external" (.obj [])) "url" (.str ""))
      else
        let url := pyStr (jgetD (jgetD image "file" (.obj [])) "url" (.str ""))
        if w.downloadImages && output_dir.isSome && url ≠ "" then
          (download_image w.net w.imagesFS url).ret
        else url
    let caption := rich_text_to_markdown (jgetD image "caption" (.arr []))
    "![" ++ caption ++ "](" ++ image_path ++ ")" ++ "\n"
  else if oeq (jget block "type") "bookmark" then
    "🔗 " ++ pyStr (jgetD (jgetD block "bookmark" (.obj [])) "url" (.str "")) ++ "\n"
  else if oeq (jget block "type") "table" then
    convert_table_block w block
  else
    "[" ++ pyStrOpt (jget block "type") ++ "]" ++ "\n"

/-- `fetch_page_content(page_id, output_dir, parent_title)`. -/
def fetch_page_content (w : World) (page_id : String) (output_dir : Option (List String))
    (parent_title : Option String) : String :=
  let blocks := get_page_children w page_id
  String.intercalate "\n" (blocks.map (fun b => block_to_markdown w b output_dir parent_title))

/-! ## CSV export (`export_database_to_csv`) -/

/-- One field under `csv.QUOTE_MINIMAL`: quoted (with doubled quote
characters) exactly when it contains a delimiter, quote, CR or LF. -/
def csvField (s : String) : String :=
  if s.toList.any (fun c => c = ',' || c = '"' || c = '\r' || c = '\n') then
    "\"" ++ pyReplaceChar '"' "\"\"" s ++ "\""
  else s

/-- One CSV line with the writer's default `\r\n` terminator. -/
def csvLine (cells : List String) : String :=
  String.intercalate "," (cells.map csvField) ++ "\r\n"

/-- The cell `export_database_to_csv` computes for one record and one
column name: `extract_property_value(record.get("properties", {}).get(name, {}))`. -/
def csvCell (record : JVal) (name : String) : String :=
  extract_property_value (jgetD (jgetD record "properties" (.obj [])) name (.obj []))

/-- The header loop of `export_database_to_csv`: non-title property names
of the first record in dict order, with the (last-seen) title-typed
property name forced to the front. -/
def derivedHeaders (first_record : JVal) : List String :=
  let step := fun (acc : List String × Option String) (nv : String × JVal) =>
    if oeq (jget nv.2 "type") "title" then (acc.1, some nv.1) else (acc.1 ++ [nv.1], acc.2)
  let hs := (objKvs (jgetD first_record "properties" (.obj []))).foldl step ([], none)
  match hs.2 with
  | some t => t :: hs.1
  | none => hs.1

/-- `export_database_to_csv(records, title, db_id, output_path)`: no-op on
an empty collection, otherwise one CSV file whose columns come from the
first record and whose every row flattens one record against them. -/
def export_database_to_csv (records : List JVal) (title : String) (db_id : String)
    (output_path : List String) : List FileWrite :=
  match records with
  | [] => []
  | first :: _ =>
    let headers := derivedHeaders first
    let csv_filename := sanitize_filename title ++ " " ++ db_id ++ ".csv"
    let content :=
      csvLine headers ++ String.join (records.map (fun r => csvLine (headers.map (csvCell r))))
    [⟨output_path, csv_filename, content⟩]

/-! ## The recursive export (`process_page` / `process_database`) -/

/-- `child.get("id")` coerced to the string handed to the recursive call. -/
def childIdOf (child : JVal) : String :=
  match jget child "id" with
  | some (.str s) => s
  | _ => ""

mutual

/-- `process_page(page_id, output_path, depth, include_properties)`,
returning the file writes it performs in order.  `fuel` bounds the
recursion depth (the Python recursion terminates only because the remote
hierarchy is a finite tree; claims are stated with enough fuel).  A failed
`notion.pages.retrieve` is logged and the call returns with no writes. -/
def process_page (w : World) : Nat → String → List String → Nat → Bool → List FileWrite
  | 0, _, _, _, _ => []
  | fuel + 1, page_id, output_path, depth, include_properties =>
    match w.pagesRetrieve page_id with
    | none => []
    | some page =>
      let title := get_page_title page
      let page_id_short := stripHyphens page_id
      let filename := sanitize_filename title ++ " " ++ page_id_short ++ ".md"
      let content := fetch_page_content w page_id (some output_path) (some title)
      let comments_md := get_page_comments w page_id
      let properties_md := if include_properties then get_page_properties_markdown page else ""
      let markdown := "# " ++ title ++ "\n\n" ++ properties_md ++ comments_md ++ content
      let blocks := get_page_children w page_id
      let child_pages := blocks.filter
        (fun b => oeq (jget b "type") "child_page" || oeq (jget b "type") "child_database")
      let child_dir := output_path ++ [sanitize_filename title]
      let childWrites := (child_pages.map (fun child =>
        if oeq (jget child "type") "child_page" then
          process_page w fuel (childIdOf child) child_dir (depth + 1) false
        else if oeq (jget child "type") "child_database" then
          process_database w fuel (childIdOf child) child_dir (depth + 1)
        else [])).flatten
      ⟨output_path, filename, markdown⟩ :: childWrites

/-- `process_database(database_id, output_path, depth)`: retrieve the
database (a failure is logged and skipped), drain its records, export the
CSV next to a new sub-directory, then export every record as its own page
with the property table included. -/
def process_database (w : World) : Nat → String → List String → Nat → List FileWrite
  | 0, _, _, _ => []
  | fuel + 1, database_id, output_path, depth =>
    match w.dbRetrieve database_id with
    | none => []
    | some db =>
      let title :=
        -- `db.get("title", [{}])[0].get("plain_text", "Untitled")`; an empty
        -- stored title array would raise an uncaught IndexError in CPython
        -- and is outside the model (no claim touches it).
        match jgetD db "title" (.arr [.obj []]) with
        | .arr (t :: _) => pyStr (jgetD t "plain_text" (.str "Untitled"))
        | _ => "Untitled"
      let db_id_short := stripHyphens database_id
      let records := queryDatabaseRecords w database_id
      let db_dir := output_path ++ [sanitize_filename title]
      let csvWrites := export_database_to_csv records title db_id_short output_path
      let recordWrites := (records.map (fun record =>
        process_page w fuel (childIdOf record) db_dir (depth + 1) true)).flatten
      csvWrites ++ recordWrites

end

/-! # Theorems -/

/-! ## Sanitiser lemmas -/

theorem dropWhile_idem {α : Type} (p : α → Bool) (l : List α) :
    (l.dropWhile p).dropWhile p = l.dropWhile p := by
  induction l with
  | nil => rfl
  | cons a t ih =>
    by_cases h : p a
    · simp [List.dropWhile_cons, h, ih]
    · simp [List.dropWhile_cons, h]

theorem not_head_of_dropWhile_self {α : Type} (p : α → Bool) {a : α} {t : List α}
    (h : (a :: t).dropWhile p = a :: t) : p a = false := by
  by_contra hpa
  rw [List.dropWhile_cons, if_pos (by simpa using hpa)] at h
  have hle := (List.dropWhile_sublist (l := t) p).length_le
  rw [h] at hle
  simp at hle

theorem stripChars_idem (l : List Char) : stripChars (stripChars l) = stripChars l := by
  unfold stripChars
  set m := l.dropWhile pyWs with hm
  have hmfix : m.dropWhile pyWs = m := dropWhile_idem pyWs l
  set r := m.reverse.dropWhile pyWs with hr
  have hrfix : r.dropWhile pyWs = r := dropWhile_idem pyWs m.reverse
  have hD : r.reverse.dropWhile pyWs = r.reverse := by
    cases hrr : r.reverse with
    | nil => simp
    | cons a t =>
      have hsplit : List.takeWhile pyWs m.reverse ++ r = m.reverse := by
        rw [hr]; exact List.takeWhile_append_dropWhile pyWs m.reverse
      have hm2 : m = a :: (t ++ (List.takeWhile pyWs m.reverse).reverse) := by
        have h4 := congrArg List.reverse hsplit
        simp at h4
        rw [hrr] at h4
        simpa using h4.symm
      have hws : pyWs a = false := by
        have h3 : List.dropWhile pyWs (a :: (t ++ (List.takeWhile pyWs m.reverse).reverse))
            = a :: (t ++ (List.takeWhile pyWs m.reverse).reverse) := by
          rw [← hm2]; exact hmfix
        exact not_head_of_dropWhile_self pyWs h3
      rw [List.dropWhile_cons, if_neg (by simp [hws])]
  rw [hD, List.reverse_reverse, hrfix]

theorem mem_of_mem_stripChars {c : Char} {l : List Char} (h : c ∈ stripChars l) : c ∈ l := by
  unfold stripChars at h
  rw [List.mem_reverse] at h
  have h2 := List.Sublist.mem h (List.dropWhile_sublist pyWs)
  rw [List.mem_reverse] at h2
  exact List.Sublist.mem h2 (List.dropWhile_sublist pyWs)

theorem mem_of_mem_sanitizeChars {c : Char} {l : List Char} (h : c ∈ sanitizeChars l) :
    (!badChars.contains c) = true := by
  have h2 : c ∈ l.filter (fun c => !badChars.contains c) := mem_of_mem_stripChars h
  exact (List.mem_filter.mp h2).2

theorem sanitizeChars_idem (l : List Char) : sanitizeChars (sanitizeChars l) = sanitizeChars l := by
  show stripChars ((sanitizeChars l).filter (fun c => !badChars.contains c)) = sanitizeChars l
  rw [List.filter_eq_self.mpr (fun c hc => mem_of_mem_sanitizeChars hc)]
  show stripChars (stripChars (l.filter (fun c => !badChars.contains c))) = _
  rw [stripChars_idem]
  rfl

/-- C8: filename sanitisation is idempotent — `sanitize(sanitize(x)) =
sanitize(x)` for every input string — and its output never contains any of
the characters stripped by the `re.sub` character class `<>:"/\|?*`. -/
theorem c8_sanitize_filename_idempotent_and_safe (x : String) :
    sanitize_filename (sanitize_filename x) = sanitize_filename x ∧
    ∀ c, c ∈ (sanitize_filename x).toList → badChars.contains c = false := by
  constructor
  · exact congrArg String.mk (sanitizeChars_idem x.toList)
  · intro c hc
    have := mem_of_mem_sanitizeChars (l := x.toList) hc
    simpa using this

/-- Witness for C8 at a concrete input: `" a<b "` sanitises to `"ab"`,
`'a'` is one of its characters and is indeed not a forbidden character. -/
theorem c8_witness :
    'a' ∈ (sanitize_filename " a<b ").toList ∧ badChars.contains 'a' = false :=
  ⟨by decide, (c8_sanitize_filename_idempotent_and_safe " a<b ").2 'a' (by decide)⟩

/-! ## Pagination draining -/

theorem drain_eq_flatten {α : Type} (resps : List (PageResp α)) (h : wfChain resps) :
    drainPaginated resps = (resps.map PageResp.results).flatten := by
  induction resps with
  | nil => cases h
  | cons r rest ih =>
    cases rest with
    | nil =>
      have hh : r.hasMore = false := h
      simp [drainPaginated, hh]
    | cons r2 rest2 =>
      have h1 : r.hasMore = true := h.1
      have hstep : drainPaginated (r :: r2 :: rest2)
          = r.results ++ drainPaginated (r2 :: rest2) := by
        show r.results ++ (if r.hasMore = true then drainPaginated (r2 :: rest2) else []) = _
        rw [h1]
        simp
      rw [hstep, ih h.2]
      simp

/-- C4: pagination draining is complete.  For any listing source that
returns N responses (every one but the last flagged `has_more`), the drain
loop aggregates exactly the concatenation of all N result pages, in order
— and this is the loop used for child blocks (`get_page_children`) and for
database records (`process_database`'s query loop).  Nothing is returned
before the chain reports no more pages, since the loop's only exit returns
the full aggregate. -/
theorem c4_pagination_complete :
    (∀ (α : Type) (resps : List (PageResp α)), wfChain resps →
       drainPaginated resps = (resps.map PageResp.results).flatten)
    ∧ (∀ (w : World) (pid : String), wfChain (w.blocksPages pid) →
       get_page_children w pid = ((w.blocksPages pid).map PageResp.results).flatten)
    ∧ (∀ (w : World) (did : String), wfChain (w.dbQueryPages did) →
       queryDatabaseRecords w did = ((w.dbQueryPages did).map PageResp.results).flatten) := by
  refine ⟨fun α resps h => drain_eq_flatten resps h, ?_, ?_⟩
  · intro w pid h
    exact drain_eq_flatten _ h
  · intro w did h
    exact drain_eq_flatten _ h

/-- Witness for C4: a concrete two-page source drains to the
concatenation of its two result pages. -/
theorem c4_witness :
    wfChain [PageResp.mk [1, 2] true, PageResp.mk [3] false] ∧
    drainPaginated [PageResp.mk [1, 2] true, PageResp.mk [3] false] = [1, 2, 3] :=
  ⟨⟨rfl, rfl⟩, by
    have h := c4_pagination_complete.1 Nat [PageResp.mk [1, 2] true, PageResp.mk [3] false]
      ⟨rfl, rfl⟩
    simpa using h⟩

/-! ## Totality of property extraction -/

/-- The closed enumeration of property types handled by the `elif` chain
of `extract_property_value`. -/
def closedPropTypes : List String :=
  ["title", "rich_text", "number", "select", "multi_select", "status", "date", "people",
   "checkbox", "url", "email", "phone_number", "formula", "relation", "rollup",
   "created_time", "created_by", "last_edited_time", "last_edited_by", "files"]

/-- C3: property value extraction is total over the closed type
enumeration (it is a total Lean function into `String`, as the Python
chain always returns).  For every defined type, a property carrying only
its type tag — every required payload field absent — extracts to `""` or
to one of the documented placeholders (the unchecked box, the zero
relation/file counts); and a property of any unrecognised type extracts to
the placeholder `[<type>]`, never failing. -/
theorem c3_extract_total :
    (∀ t ∈ closedPropTypes,
       extract_property_value (.obj [("type", .str t)]) ∈ ["", "☐", "(0 items)", "(0 files)"])
    ∧ (∀ (t : String) (prop : JVal), t ∉ closedPropTypes →
       jget prop "type" = some (.str t) →
       extract_property_value prop = "[" ++ t ++ "]") := by
  constructor
  · decide
  · intro t prop ht hty
    simp [closedPropTypes] at ht
    obtain ⟨h1, h2, h3, h4, h5, h6, h7, h8, h9, h10, h11, h12, h13, h14, h15, h16, h17,
      h18, h19, h20⟩ := ht
    simp [extract_property_value, hty, oeq, h1, h2, h3, h4, h5, h6, h7, h8, h9, h10,
      h11, h12, h13, h14, h15, h16, h17, h18, h19, h20, pyStrOpt, pyStr]

/-- Witness for C3: the defined type `checkbox` with its payload absent
extracts to the placeholder box, and the undefined type `wizard` extracts
to `[wizard]`. -/
theorem c3_witness :
    "checkbox" ∈ closedPropTypes ∧
    extract_property_value (.obj [("type", JVal.str "checkbox")]) ∈ ["", "☐", "(0 items)", "(0 files)"] ∧
    "wizard" ∉ closedPropTypes ∧
    extract_property_value (.obj [("type", JVal.str "wizard")]) = "[" ++ "wizard" ++ "]" :=
  ⟨by decide, c3_extract_total.1 "checkbox" (by decide), by decide,
   c3_extract_total.2 "wizard" (.obj [("type", .str "wizard")]) (by decide) rfl⟩

/-! ## Block renderer totality -/

def closedBlockKinds : List String :=
  ["paragraph", "heading_1", "heading_2", "heading_3", "bulleted_list_item",
   "numbered_list_item", "to_do", "toggle", "code", "quote", "divider", "callout",
   "child_page", "child_database", "image", "bookmark", "table"]

theorem ne_empty_of_endsNL {s : String} (h : ∃ u, s = u ++ "\n") : s ≠ "" := by
  obtain ⟨u, rfl⟩ := h
  intro h0
  have h2 := congrArg String.length h0
  rw [String.length_append] at h2
  have h3 : ("\n" : String).length = 1 := rfl
  have h4 : ("" : String).length = 0 := rfl
  rw [h3, h4] at h2
  omega

theorem convert_table_endsNL (w : World) (b : JVal) :
    ∃ u, convert_table_block w b = u ++ "\n" := by
  unfold convert_table_block
  cases h : (match jget b "id" with
    | some (.str i) => w.tableRows i
    | _ => none) with
  | none => exact ⟨_, rfl⟩
  | some rows =>
    cases rows with
    | nil => exact ⟨_, rfl⟩
    | cons r rest => exact ⟨_, rfl⟩

theorem if_oeq_neg {α : Sort _} {s x : String} (h : s ≠ x) (a b : α) :
    (if oeq (some (.str s)) x = true then a else b) = b := by
  have hf : oeq (some (.str s)) x = false := by simp [oeq, h]
  rw [hf]
  simp

set_option maxHeartbeats 1000000 in
/-- C5: for every block of a kind in the closed enumeration (indeed, for
every block of the model), the renderer returns a non-empty fragment that
ends in a line break; and a block of any unrecognised kind renders exactly
as the visible placeholder `[<kind>]` followed by a line break, never
silently dropped. -/
theorem c5_block_renderer_total :
    (∀ (w : World) (b : JVal) (dir : Option (List String)) (pt : Option String),
       block_to_markdown w b dir pt ≠ "" ∧
       ∃ u, block_to_markdown w b dir pt = u ++ "\n")
    ∧ (∀ (w : World) (dir : Option (List String)) (pt : Option String) (kind : String) (b : JVal),
       kind ∉ closedBlockKinds → jget b "type" = some (.str kind) →
       block_to_markdown w b dir pt = "[" ++ kind ++ "]" ++ "\n") := by
  constructor
  · intro w b dir pt
    have hNL : ∃ u, block_to_markdown w b dir pt = u ++ "\n" := by
      unfold block_to_markdown
      cases hbt : jget b "type" with
      | none => exact ⟨_, rfl⟩
      | some v =>
        cases v with
        | str s =>
          rcases eq_or_ne s "paragraph" with rfl | n1
          · exact ⟨_, rfl⟩
          rcases eq_or_ne s "heading_1" with rfl | n2
          · exact ⟨_, rfl⟩
          rcases eq_or_ne s "heading_2" with rfl | n3
          · exact ⟨_, rfl⟩
          rcases eq_or_ne s "heading_3" with rfl | n4
          · exact ⟨_, rfl⟩
          rcases eq_or_ne s "bulleted_list_item" with rfl | n5
          · exact ⟨_, rfl⟩
          rcases eq_or_ne s "numbered_list_item" with rfl | n6
          · exact ⟨_, rfl⟩
          rcases eq_or_ne s "to_do" with rfl | n7
          · exact ⟨_, rfl⟩
          rcases eq_or_ne s "toggle" with rfl | n8
          · exact ⟨_, rfl⟩
          rcases eq_or_ne s "code" with rfl | n9
          · exact ⟨_, rfl⟩
          rcases eq_or_ne s "quote" with rfl | n10
          · exact ⟨_, rfl⟩
          rcases eq_or_ne s "divider" with rfl | n11
          · exact ⟨_, rfl⟩
          rcases eq_or_ne s "callout" with rfl | n12
          · exact ⟨_, rfl⟩
          rcases eq_or_ne s "child_page" with rfl | n13
          · exact ⟨_, rfl⟩
          rcases eq_or_ne s "child_database" with rfl | n14
          · exact ⟨_, rfl⟩
          rcases eq_or_ne s "image" with rfl | n15
          · exact ⟨_, rfl⟩
          rcases eq_or_ne s "bookmark" with rfl | n16
          · exact ⟨_, rfl⟩
          rcases eq_or_ne s "table" with rfl | n17
          · exact convert_table_endsNL w b
          simp only [if_oeq_neg n1, if_oeq_neg n2, if_oeq_neg n3, if_oeq_neg n4,
            if_oeq_neg n5, if_oeq_neg n6, if_oeq_neg n7, if_oeq_neg n8, if_oeq_neg n9,
            if_oeq_neg n10, if_oeq_neg n11, if_oeq_neg n12, if_oeq_neg n13,
            if_oeq_neg n14, if_oeq_neg n15, if_oeq_neg n16, if_oeq_neg n17]
          exact ⟨_, rfl⟩
        | null => exact ⟨_, rfl⟩
        | bool x => exact ⟨_, rfl⟩
        | num x => exact ⟨_, rfl⟩
        | arr x => exact ⟨_, rfl⟩
        | obj x => exact ⟨_, rfl⟩
    exact ⟨ne_empty_of_endsNL hNL, hNL⟩
  · intro w dir pt kind b ht hty
    simp [closedBlockKinds] at ht
    obtain ⟨n1, n2, n3, n4, n5, n6, n7, n8, n9, n10, n11, n12, n13, n14, n15, n16, n17⟩ := ht
    unfold block_to_markdown
    rw [hty]
    simp only [if_oeq_neg n1, if_oeq_neg n2, if_oeq_neg n3, if_oeq_neg n4,
      if_oeq_neg n5, if_oeq_neg n6, if_oeq_neg n7, if_oeq_neg n8, if_oeq_neg n9,
      if_oeq_neg n10, if_oeq_neg n11, if_oeq_neg n12, if_oeq_neg n13,
      if_oeq_neg n14, if_oeq_neg n15, if_oeq_neg n16, if_oeq_neg n17]
    rfl

/-- A minimal concrete world for witnesses: every remote call fails or
returns nothing. -/
def emptyWorld : World where
  pagesRetrieve := fun _ => none
  dbRetrieve := fun _ => none
  blocksPages := fun _ => [⟨[], false⟩]
  commentsPages := fun _ => some [⟨[], false⟩]
  dbQueryPages := fun _ => [⟨[], false⟩]
  tableRows := fun _ => none
  downloadImages := false
  imagesFS := []
  net := fun _ => false

/-- Witness for C5: a concrete block of the undefined kind `wizard`
renders as `[wizard]` plus a newline. -/
theorem c5_witness :
    "wizard" ∉ closedBlockKinds ∧
    block_to_markdown emptyWorld (.obj [("type", JVal.str "wizard")]) none none
      = "[" ++ "wizard" ++ "]" ++ "\n" :=
  ⟨by decide,
   c5_block_renderer_total.2 emptyWorld none none "wizard"
     (.obj [("type", JVal.str "wizard")]) (by decide) rfl⟩

/-! ## Table block rendering -/

/-- Spec-side rendering of one table row: every cell rendered and
pipe-escaped (claim C6's wording). -/
def specRowRender (row : JVal) : String :=
  "| " ++ String.intercalate " | " (rowCellTexts row) ++ " |"

def specSeparator (row : JVal) : String :=
  "| " ++ String.intercalate " | " ((rowCellTexts row).map (fun _ => "---")) ++ " |"

def specTableRender : List JVal → String
  | [] => ""
  | r0 :: rest =>
    String.intercalate "\n"
      (specRowRender r0 :: specSeparator r0 :: rest.map specRowRender) ++ "\n" ++ "\n"

def mkTableBlock (bid : String) (colHeader rowHeader : Bool) : JVal :=
  .obj [("type", .str "table"), ("id", .str bid),
        ("table", .obj [("has_column_header", .bool colHeader),
                        ("has_row_header", .bool rowHeader)])]

theorem tableRowsToMd_pos (rows : List JVal) (i : Nat) (hi : i ≠ 0)
    (h : ∀ r ∈ rows, oeq (jget r "type") "table_row" = true) :
    tableRowsToMd rows i = rows.map specRowRender := by
  induction rows generalizing i with
  | nil => simp [tableRowsToMd]
  | cons r rest ih =>
    have hr := h r (by simp)
    simp only [tableRowsToMd, hr, if_true, hi, if_false, List.map_cons, if_neg hi]
    rw [ih (i + 1) (by omega) (fun x hx => h x (by simp [hx]))]
    rfl

/-- C6: a rendered tabular block pipe-escapes every cell (the rendering of
each cell is `rich_text_to_markdown` followed by the escape
`replace "|" "\\|"`, as `specRowRender` spells out), and the
header-separator row is inserted directly after the first row; the block's
own `has_column_header`/`has_row_header` flags are read but never used, so
the output is identical for every flag combination. -/
theorem c6_table_header_and_escape (w : World) (f1 f2 g1 g2 : Bool) (bid : String)
    (rows : List JVal) (hrows : w.tableRows bid = some rows) (hne : rows ≠ [])
    (hall : ∀ r ∈ rows, oeq (jget r "type") "table_row" = true) :
    convert_table_block w (mkTableBlock bid f1 f2) = specTableRender rows ∧
    convert_table_block w (mkTableBlock bid f1 f2)
      = convert_table_block w (mkTableBlock bid g1 g2) := by
  constructor
  · show (match (match jget (mkTableBlock bid f1 f2) "id" with
      | some (.str i) => w.tableRows i
      | _ => none) with
      | none => "[Table conversion error]" ++ "\n"
      | some rows =>
        match rows with
        | [] => "[Empty Table]" ++ "\n"
        | _ => String.intercalate "\n" (tableRowsToMd rows 0) ++ "\n" ++ "\n") = _
    have hid : jget (mkTableBlock bid f1 f2) "id" = some (.str bid) := rfl
    rw [hid]
    simp only [hrows]
    cases rows with
    | nil => exact absurd rfl hne
    | cons r rest =>
      have hr := hall r (by simp)
      simp only [tableRowsToMd, hr, if_true, if_pos rfl]
      rw [tableRowsToMd_pos rest 1 (by omega) (fun x hx => hall x (by simp [hx]))]
      rfl
  · rfl

/-- A concrete table row whose single cell contains a pipe character. -/
def tableRow1 : JVal :=
  .obj [("type", .str "table_row"),
        ("table_row", .obj [("cells", .arr [.arr [.obj [("plain_text", .str "a|b")]]])])]

/-- A second concrete table row. -/
def tableRow2 : JVal :=
  .obj [("type", .str "table_row"),
        ("table_row", .obj [("cells", .arr [.arr [.obj [("plain_text", .str "c")]]])])]

/-- A world whose only table listing returns the two rows above. -/
def tableWorld : World where
  pagesRetrieve := fun _ => none
  dbRetrieve := fun _ => none
  blocksPages := fun _ => [⟨[], false⟩]
  commentsPages := fun _ => some [⟨[], false⟩]
  dbQueryPages := fun _ => [⟨[], false⟩]
  tableRows := fun i => if i = "t1" then some [tableRow1, tableRow2] else none
  downloadImages := false
  imagesFS := []
  net := fun _ => false

/-- Witness for C6 at a concrete two-row table (first cell holds a pipe). -/
theorem c6_witness :
    tableWorld.tableRows "t1" = some [tableRow1, tableRow2] ∧
    convert_table_block tableWorld (mkTableBlock "t1" false true)
      = specTableRender [tableRow1, tableRow2] :=
  ⟨rfl,
   (c6_table_header_and_escape tableWorld false true true false "t1" [tableRow1, tableRow2]
     rfl (by simp) (by decide)).1⟩

/-! ## Nested-reference links -/

def mkChildPageBlock (cid title : String) : JVal :=
  .obj [("type", .str "child_page"), ("id", .str cid),
        ("child_page", .obj [("title", .str title)])]

def mkChildDatabaseBlock (cid title : String) : JVal :=
  .obj [("type", .str "child_database"), ("id", .str cid),
        ("child_database", .obj [("title", .str title)])]

/-- C7: a nested-page (resp. nested-container) reference block rendered
with a known (non-empty) `parent_title` and a non-empty stripped child id
links to `sanitize(parentTitle)/sanitize(childTitle)%20<idWithoutHyphens>.md`
(resp. `.csv`) — the space before the identifier written percent-encoded —
while without a parent title a bare, unlinked label is emitted. -/
theorem c7_child_reference_links (w : World) (dir : Option (List String))
    (cid title pt : String) (hpt : pt ≠ "") (hid : stripHyphens cid ≠ "") :
    block_to_markdown w (mkChildPageBlock cid title) dir (some pt)
      = "📄 [" ++ title ++ "](" ++ sanitize_filename pt ++ "/" ++ sanitize_filename title
        ++ "%20" ++ stripHyphens cid ++ ".md)" ++ "\n" ∧
    block_to_markdown w (mkChildDatabaseBlock cid title) dir (some pt)
      = "🗄️ [" ++ title ++ "](" ++ sanitize_filename pt ++ "/" ++ sanitize_filename title
        ++ "%20" ++ stripHyphens cid ++ ".csv)" ++ "\n" ∧
    block_to_markdown w (mkChildPageBlock cid title) dir none
      = "📄 [" ++ title ++ "]" ++ "\n" ∧
    block_to_markdown w (mkChildDatabaseBlock cid title) dir none
      = "🗄️ [" ++ title ++ "]" ++ "\n" := by
  have hlc : linkCond (some pt) (stripHyphens cid) = true := by
    simp [linkCond, hpt, hid]
  refine ⟨?_, ?_, rfl, rfl⟩
  · have h1 : block_to_markdown w (mkChildPageBlock cid title) dir (some pt)
        = (if linkCond (some pt) (stripHyphens cid) = true then
            "📄 [" ++ title ++ "](" ++ sanitize_filename pt ++ "/" ++ sanitize_filename title
              ++ "%20" ++ stripHyphens cid ++ ".md)"
          else "📄 [" ++ title ++ "]") ++ "\n" := rfl
    rw [h1, if_pos hlc]
  · have h2 : block_to_markdown w (mkChildDatabaseBlock cid title) dir (some pt)
        = (if linkCond (some pt) (stripHyphens cid) = true then
            "🗄️ [" ++ title ++ "](" ++ sanitize_filename pt ++ "/" ++ sanitize_filename title
              ++ "%20" ++ stripHyphens cid ++ ".csv)"
          else "🗄️ [" ++ title ++ "]") ++ "\n" := rfl
    rw [h2, if_pos hlc]

/-- Witness for C7 at concrete titles (the child title contains a `/`
that sanitisation removes). -/
theorem c7_witness :
    ("Parent" : String) ≠ "" ∧ stripHyphens "ab-cd" ≠ "" ∧
    block_to_markdown emptyWorld (mkChildPageBlock "ab-cd" "Ch/ild") none (some "Parent")
      = "📄 [" ++ "Ch/ild" ++ "](" ++ sanitize_filename "Parent" ++ "/"
        ++ sanitize_filename "Ch/ild" ++ "%20" ++ stripHyphens "ab-cd" ++ ".md)" ++ "\n" :=
  ⟨by decide, by decide,
   (c7_child_reference_links emptyWorld none "ab-cd" "Ch/ild" "Parent"
     (by decide) (by decide)).1⟩

/-! ## Asset de-duplication -/

/-- C9: asset fetching is de-duplicating and idempotent.  If a call to
`download_image` wrote the file, a second call for the same URL skips the
download (the derived local name, a pure function of the URL, already
exists), writes nothing, and returns the identical local relative path. -/
theorem c9_download_image_dedup (net : String → Bool) (fs : List String) (url : String)
    (h : (download_image net fs url).wrote = true) :
    download_image net (download_image net fs url).fs url
      = ⟨(download_image net fs url).fs, (download_image net fs url).ret, false⟩ := by
  unfold download_image at h ⊢
  by_cases h1 : ("images/" ++ derivedImageName url) ∈ fs
  · simp [h1] at h
  · by_cases h2 : net url = true
    · simp [h1, h2]
    · simp [h1, h2] at h

/-- Witness for C9: a concrete successful download, repeated. -/
theorem c9_witness :
    (download_image (fun _ => true) [] "http://h/b/pic.png").wrote = true ∧
    download_image (fun _ => true) (download_image (fun _ => true) [] "http://h/b/pic.png").fs
        "http://h/b/pic.png"
      = ⟨(download_image (fun _ => true) [] "http://h/b/pic.png").fs,
         (download_image (fun _ => true) [] "http://h/b/pic.png").ret, false⟩ :=
  ⟨rfl, c9_download_image_dedup (fun _ => true) [] "http://h/b/pic.png" rfl⟩

/-! ## Property table omissions -/

/-- The properties `get_page_properties_markdown` keeps: not the title
property, and not a property whose extracted value is empty. -/
def keepProp (nv : String × JVal) : Bool :=
  !(oeq (jget nv.2 "type") "title") && extract_property_value nv.2 ≠ ""

theorem prop_items_eq_nil_iff (kvs : List (String × JVal)) :
    prop_items kvs = [] ↔
    ∀ nv ∈ kvs, oeq (jget nv.2 "type") "title" = true ∨ extract_property_value nv.2 = "" := by
  induction kvs with
  | nil => simp [prop_items]
  | cons a rest ih =>
    obtain ⟨n, p⟩ := a
    by_cases ht : oeq (jget p "type") "title" = true
    · simp [prop_items, ht, ih]
    · by_cases hv : extract_property_value p = ""
      · simp [prop_items, ht, hv, ih]
      · simp [prop_items, ht, hv]

theorem prop_items_filter_keep (kvs : List (String × JVal)) :
    prop_items (kvs.filter keepProp) = prop_items kvs := by
  induction kvs with
  | nil => rfl
  | cons a rest ih =>
    obtain ⟨n, p⟩ := a
    by_cases ht : oeq (jget p "type") "title" = true
    · simp [List.filter_cons, keepProp, ht, prop_items, ih]
    · by_cases hv : extract_property_value p = ""
      · simp [List.filter_cons, keepProp, ht, hv, prop_items, ih]
      · simp [List.filter_cons, keepProp, ht, hv, prop_items, ih]

theorem gppm_eq_empty_iff (page : JVal) :
    get_page_properties_markdown page = "" ↔
    prop_items (objKvs (jgetD page "properties" (.obj []))) = [] := by
  unfold get_page_properties_markdown
  cases hp : objKvs (jgetD page "properties" (.obj [])) with
  | nil => simp [prop_items]
  | cons a rest =>
    cases hi : prop_items (a :: rest) with
    | nil => simp [hi]
    | cons it its =>
      simp only [hi]
      constructor
      · intro h
        exact absurd h (ne_empty_of_endsNL ⟨_, rfl⟩)
      · intro h
        cases h

/-- C10: in the rendered property table, the title-typed property and
every property whose extracted value is empty are omitted (filtering them
away beforehand changes nothing), and the rendered section is exactly the
empty string precisely when nothing remains — in particular when the
record has no properties at all or only omitted ones. -/
theorem c10_property_table_omissions (page : JVal) :
    (get_page_properties_markdown page = "" ↔
      ∀ nv ∈ objKvs (jgetD page "properties" (.obj [])),
        oeq (jget nv.2 "type") "title" = true ∨ extract_property_value nv.2 = "") ∧
    (∀ kvs : List (String × JVal), prop_items (kvs.filter keepProp) = prop_items kvs) := by
  refine ⟨?_, prop_items_filter_keep⟩
  rw [gppm_eq_empty_iff]
  exact prop_items_eq_nil_iff _

/-- A concrete record page whose properties are one title property and one
empty rich-text property — both omitted from the property table. -/
def omitPage : JVal :=
  .obj [("properties", .obj [
    ("T", .obj [("type", .str "title"), ("title", .arr [.obj [("plain_text", .str "x")]])]),
    ("R", .obj [("type", .str "rich_text"), ("rich_text", .arr [])])])]

/-- Witness for C10: the concrete page above renders no property table. -/
theorem c10_witness : get_page_properties_markdown omitPage = "" :=
  (c10_property_table_omissions omitPage).1.mpr (by decide)

/-! ## CSV flattening and failure isolation -/

def csvRec1 : JVal :=
  .obj [("id", .str "r1"), ("properties", .obj [
    ("N", .obj [("type", .str "title"), ("title", .arr [.obj [("plain_text", .str "a")]])]),
    ("B", .obj [("type", .str "rich_text"), ("rich_text", .arr [.obj [("plain_text", .str "b")]])])])]

def csvRec2 : JVal :=
  .obj [("id", .str "r2"), ("properties", .obj [
    ("N", .obj [("type", .str "title"), ("title", .arr [.obj [("plain_text", .str "c")]])])])]

/-- Counterexample to C2 as stated: in the CSV export, a record lacking a
column of the fixed set yields the cell `[None]` — `extract_property_value`
applied to the empty dict default renders the absent type tag — not an
empty cell.  Concretely, the second record lacks column `B` and its row
reads `c,[None]`. -/
theorem c2_counterexample :
    csvCell csvRec2 "B" = "[None]" ∧ ¬ csvCell csvRec2 "B" = "" ∧
    export_database_to_csv [csvRec1, csvRec2] "T" "tid" []
      = [⟨[], "T tid.csv", "N,B\r\na,b\r\nc,[None]\r\n"⟩] :=
  ⟨rfl, by decide, by decide⟩

/-- C2 (amended): every record, after the first, is flattened against the
fixed column set derived from the first record — each CSV row maps exactly
`derivedHeaders first` through `csvCell` — and a record that lacks one of
those columns yields the placeholder cell `[None]` in its row rather than
an error (not an empty cell, as the original claim said). -/
theorem c2_csv_flatten_placeholder (records : List JVal) (title dbid : String)
    (output_path : List String) (first : JVal) (rest : List JVal)
    (hrec : records = first :: rest) :
    export_database_to_csv records title dbid output_path
      = [⟨output_path, sanitize_filename title ++ " " ++ dbid ++ ".csv",
          csvLine (derivedHeaders first)
            ++ String.join (records.map (fun r => csvLine ((derivedHeaders first).map (csvCell r))))⟩]
    ∧ ∀ (r : JVal) (name : String),
        jget (jgetD r "properties" (.obj [])) name = none → csvCell r name = "[None]" := by
  subst hrec
  constructor
  · rfl
  · intro r name hmiss
    have hx : jgetD (jgetD r "properties" (.obj [])) name (.obj []) = .obj [] := by
      show (match jget (jgetD r "properties" (.obj [])) name with
            | some x => x
            | none => JVal.obj []) = JVal.obj []
      rw [hmiss]
    show extract_property_value (jgetD (jgetD r "properties" (.obj [])) name (.obj [])) = "[None]"
    rw [hx]
    rfl

def mkTitlePage (t : String) : JVal :=
  .obj [("properties", .obj [("T", .obj [("type", .str "title"),
    ("title", .arr [.obj [("plain_text", .str t)]])])])]

def siblingWorld : World where
  pagesRetrieve := fun pid =>
    if pid = "root" then some (mkTitlePage "Root")
    else if pid = "c1" then some (mkTitlePage "C1")
    else if pid = "c3" then some (mkTitlePage "C3")
    else none
  dbRetrieve := fun _ => none
  blocksPages := fun pid =>
    if pid = "root" then
      [⟨[mkChildPageBlock "c1" "C1", mkChildPageBlock "c2" "C2",
         mkChildPageBlock "c3" "C3"], false⟩]
    else [⟨[], false⟩]
  commentsPages := fun _ => some [⟨[], false⟩]
  dbQueryPages := fun _ => [⟨[], false⟩]
  tableRows := fun _ => none
  downloadImages := false
  imagesFS := []
  net := fun _ => false

/-- C1: when a node's metadata fetch throws (`notion.pages.retrieve` /
`notion.databases.retrieve` returns `none` in the model), that node's
export is abandoned with no file written and no recursion into its
children, while the enclosing traversal — which concatenates the sibling
exports independently — continues.  In the concrete three-sibling world
where the middle child's page fetch throws, the parent and the two other
siblings are exported, no file exists for the failed child, and the run
completes. -/
theorem c1_fetch_failure_isolated :
    (∀ (w : World) (fuel : Nat) (pid : String) (out : List String) (depth : Nat) (ip : Bool),
       w.pagesRetrieve pid = none → process_page w fuel pid out depth ip = [])
    ∧ (∀ (w : World) (fuel : Nat) (did : String) (out : List String) (depth : Nat),
       w.dbRetrieve did = none → process_database w fuel did out depth = [])
    ∧ siblingWorld.pagesRetrieve "c2" = none
    ∧ (process_page siblingWorld 2 "root" [] 0 false).map (fun f => (f.dir, f.name))
        = [([], "Root root.md"), (["Root"], "C1 c1.md"), (["Root"], "C3 c3.md")] := by
  refine ⟨?_, ?_, rfl, ?_⟩
  · intro w fuel pid out depth ip h
    cases fuel with
    | zero => rfl
    | succ n =>
      unfold process_page
      rw [h]
  · intro w fuel did out depth h
    cases fuel with
    | zero => rfl
    | succ n =>
      unfold process_database
      rw [h]
  · decide

/-- Witness for C2's amended theorem at the concrete two-record database. -/
theorem c2_witness :
    ([csvRec1, csvRec2] : List JVal) = csvRec1 :: [csvRec2] ∧
    export_database_to_csv [csvRec1, csvRec2] "T" "tid" []
      = [⟨[], sanitize_filename "T" ++ " " ++ "tid" ++ ".csv",
          csvLine (derivedHeaders csvRec1)
            ++ String.join ([csvRec1, csvRec2].map
                (fun r => csvLine ((derivedHeaders csvRec1).map (csvCell r))))⟩] :=
  ⟨rfl, (c2_csv_flatten_placeholder [csvRec1, csvRec2] "T" "tid" [] csvRec1 [csvRec2] rfl).1⟩

/-- Witness for C1: concrete failed retrievals produce no writes at all. -/
theorem c1_witness :
    emptyWorld.pagesRetrieve "p" = none ∧ process_page emptyWorld 3 "p" [] 0 false = [] ∧
    emptyWorld.dbRetrieve "d" = none ∧ process_database emptyWorld 3 "d" [] 0 = [] :=
  ⟨rfl, c1_fetch_failure_isolated.1 emptyWorld 3 "p" [] 0 false rfl, rfl,
   c1_fetch_failure_isolated.2.1 emptyWorld 3 "d" [] 0 rfl⟩
